import Mathlib

/-!
Verification development for a Python docstring-generation program
(app/tools.py, app/agents.py, app/models.py).  The Python AST fragment
the program dispatches on is shallowly embedded as a Lean inductive
type; every analysis routine is translated into a computable Lean
function mirroring the source.  Expression nodes that the program only
ever renders back to text (decorators, default values, annotations,
raised exceptions, base classes) are carried as their source-text
strings, which is exactly how the program consumes them (via
ast.unparse).
-/

namespace DocAgent

/-- Truthiness of an optional string, as Python evaluates an `if x:`
test: None and the empty string are falsy. -/
def pyTruthy : Option String → Bool
  | some s => s ≠ ""
  | none => false

/-- Python substring test on char lists (`needle in hay`). -/
def subOfList (needle : List Char) : List Char → Bool
  | [] => needle.isEmpty
  | c :: rest => needle.isPrefixOf (c :: rest) || subOfList needle rest

/-- Python `needle in hay` on strings. -/
def strContains (hay needle : String) : Bool :=
  subOfList needle.toList hay.toList

/-- Python str.lower() (the program only ever lowercases ASCII
identifiers).  Defined by structural recursion over the character
data so that concrete evaluation reduces in the kernel. -/
def pyLower (s : String) : String :=
  String.mk (s.data.map Char.toLower)

/-- Embedding of the Python statement/expression node kinds that
ComplexityAnalyzer (src/app/tools.py:49) and the extractor dispatch
on.  Each node carries the list of its child nodes, which is what
generic_visit / ast.walk traverse; kinds with no dedicated visitor are
collapsed into `other`.  A Raise node carries the unparsed text of its
exception expression (None for a bare re-raise); a Call carries the
callee name when the callee is a plain name. -/
inductive PyNode where
  | ifStmt (children : List PyNode)
  | forStmt (children : List PyNode)
  | asyncForStmt (children : List PyNode)
  | whileStmt (children : List PyNode)
  | exceptHandler (children : List PyNode)
  | withStmt (children : List PyNode)
  | asyncWithStmt (children : List PyNode)
  | returnStmt (children : List PyNode)
  | boolOp (values : List PyNode)
  | raiseStmt (excText : Option String) (children : List PyNode)
  | yieldExpr (children : List PyNode)
  | yieldFromExpr (children : List PyNode)
  | callExpr (calleeName : Option String) (children : List PyNode)
  | other (children : List PyNode)

mutual
/-- Complexity increment contributed by visiting one node and its
subtree, mirroring ComplexityAnalyzer.visit_If / visit_For /
visit_While / visit_ExceptHandler / visit_With / visit_BoolOp
(src/app/tools.py:62-89); every other kind falls through to
generic_visit.  The analyzer starts its counter at 1, so the final
complexity is 1 plus this quantity. -/
def visitComplexity : PyNode → Nat
  | .ifStmt cs => 1 + visitComplexityList cs
  | .forStmt cs => 1 + visitComplexityList cs
  | .asyncForStmt cs => visitComplexityList cs
  | .whileStmt cs => 1 + visitComplexityList cs
  | .exceptHandler cs => 1 + visitComplexityList cs
  | .withStmt cs => 1 + visitComplexityList cs
  | .asyncWithStmt cs => visitComplexityList cs
  | .returnStmt cs => visitComplexityList cs
  | .boolOp vs => (vs.length - 1) + visitComplexityList vs
  | .raiseStmt _ cs => visitComplexityList cs
  | .yieldExpr cs => visitComplexityList cs
  | .yieldFromExpr cs => visitComplexityList cs
  | .callExpr _ cs => visitComplexityList cs
  | .other cs => visitComplexityList cs

def visitComplexityList : List PyNode → Nat
  | [] => 0
  | n :: ns => visitComplexity n + visitComplexityList ns
end

mutual
/-- Return statements counted while visiting a subtree, mirroring
ComplexityAnalyzer.visit_Return (src/app/tools.py:82). -/
def visitReturnCount : PyNode → Nat
  | .returnStmt cs => 1 + visitReturnCountList cs
  | .ifStmt cs => visitReturnCountList cs
  | .forStmt cs => visitReturnCountList cs
  | .asyncForStmt cs => visitReturnCountList cs
  | .whileStmt cs => visitReturnCountList cs
  | .exceptHandler cs => visitReturnCountList cs
  | .withStmt cs => visitReturnCountList cs
  | .asyncWithStmt cs => visitReturnCountList cs
  | .boolOp vs => visitReturnCountList vs
  | .raiseStmt _ cs => visitReturnCountList cs
  | .yieldExpr cs => visitReturnCountList cs
  | .yieldFromExpr cs => visitReturnCountList cs
  | .callExpr _ cs => visitReturnCountList cs
  | .other cs => visitReturnCountList cs

def visitReturnCountList : List PyNode → Nat
  | [] => 0
  | n :: ns => visitReturnCount n + visitReturnCountList ns
end

mutual
/-- Flattening of a subtree into the list of all its nodes (the
program uses ast.walk, which yields every node of the subtree; walk
returns them breadth-first, but none of the verified properties
depend on the order, so the embedding flattens in preorder). -/
def walkNode : PyNode → List PyNode
  | .ifStmt cs => .ifStmt cs :: walkList cs
  | .forStmt cs => .forStmt cs :: walkList cs
  | .asyncForStmt cs => .asyncForStmt cs :: walkList cs
  | .whileStmt cs => .whileStmt cs :: walkList cs
  | .exceptHandler cs => .exceptHandler cs :: walkList cs
  | .withStmt cs => .withStmt cs :: walkList cs
  | .asyncWithStmt cs => .asyncWithStmt cs :: walkList cs
  | .returnStmt cs => .returnStmt cs :: walkList cs
  | .boolOp vs => .boolOp vs :: walkList vs
  | .raiseStmt e cs => .raiseStmt e cs :: walkList cs
  | .yieldExpr cs => .yieldExpr cs :: walkList cs
  | .yieldFromExpr cs => .yieldFromExpr cs :: walkList cs
  | .callExpr f cs => .callExpr f cs :: walkList cs
  | .other cs => .other cs :: walkList cs

def walkList : List PyNode → List PyNode
  | [] => []
  | n :: ns => walkNode n ++ walkList ns
end

/-- Per-node complexity increment of the visitor, as a flat table:
1 for If/For/While/ExceptHandler/With, (number of operands - 1) for a
BoolOp, 0 otherwise (src/app/tools.py:62-89). -/
def complexityInc : PyNode → Nat
  | .ifStmt _ => 1
  | .forStmt _ => 1
  | .whileStmt _ => 1
  | .exceptHandler _ => 1
  | .withStmt _ => 1
  | .boolOp vs => vs.length - 1
  | _ => 0

/-- Modelled from the spec (section 4.2): the increment the spec text
prescribes — 1 for each conditional branch, loop of ANY kind,
exception-handler clause, and resource-scope block, and (k - 1) for a
boolean short-circuit expression with k operands.  Unlike
complexityInc (the code), this counts async for and async with. -/
def specComplexityInc : PyNode → Nat
  | .ifStmt _ => 1
  | .forStmt _ => 1
  | .asyncForStmt _ => 1
  | .whileStmt _ => 1
  | .exceptHandler _ => 1
  | .withStmt _ => 1
  | .asyncWithStmt _ => 1
  | .boolOp vs => vs.length - 1
  | _ => 0

/-- A decorator expression, as the program inspects it: a plain name
(ast.Name), an attribute access (ast.Attribute, for the x.setter
check), or anything else carried as its unparsed text. -/
inductive PyDecorator where
  | nameDec (id : String)
  | attrDec (valueText : String) (attr : String)
  | otherDec (text : String)
deriving DecidableEq

/-- ast.unparse of a decorator expression. -/
def decoratorText : PyDecorator → String
  | .nameDec id => id
  | .attrDec v a => v ++ "." ++ a
  | .otherDec t => t

/-- One positional argument of a Python function definition: its name
and the unparsed text of its annotation, if any. -/
structure PyArg where
  name : String
  annot : Option String := none
deriving DecidableEq

/-- A Python function definition as the program consumes it:
node.name, node.args.args, node.args.defaults (unparsed texts),
node.returns (unparsed), node.decorator_list, the statement body,
async-ness, the line span, and the leading string-constant docstring
of the body if there is one (the body[0] Expr/Constant/str check of
_extract_function_info, src/app/agents.py:348). -/
structure PyFunctionDef where
  name : String
  args : List PyArg := []
  defaults : List String := []
  returns : Option String := none
  decoratorList : List PyDecorator := []
  body : List PyNode := []
  is_async : Bool := false
  lineno : Nat := 1
  end_lineno : Nat := 1
  docstringConst : Option String := none

/-- One item of a class body, at the granularity the program
dispatches on: a (sync or async) method definition, an assignment
(each target carried as some id when it is an ast.Name, none
otherwise), an annotated assignment (target id when it is a Name), or
anything else. -/
inductive ClassBodyItem where
  | methodDef (f : PyFunctionDef)
  | asyncMethodDef (f : PyFunctionDef)
  | assignStmt (nameTargets : List (Option String))
  | annAssignStmt (nameTarget : Option String)
  | otherItem

/-- A Python class definition as the program consumes it. -/
structure PyClassDef where
  name : String
  bases : List String := []
  body : List ClassBodyItem := []
  decoratorList : List PyDecorator := []
  lineno : Nat := 1
  end_lineno : Nat := 1
  docstringConst : Option String := none

/-! ## Data model (app/models.py) -/

/-- models.ParameterInfo. -/
structure ParameterInfo where
  name : String
  type_hint : Option String := none
  default_value : Option String := none
  description : String := ""
deriving DecidableEq

/-- models.FunctionInfo. -/
structure FunctionInfo where
  name : String
  is_async : Bool := false
  is_method : Bool := false
  is_property : Bool := false
  parameters : List ParameterInfo := []
  return_type : Option String := none
  raises : List String := []
  decorators : List String := []
  existing_docstring : Option String := none
deriving DecidableEq

/-- models.ClassInfo. -/
structure ClassInfo where
  name : String
  bases : List String := []
  methods : List String := []
  attributes : List String := []
  decorators : List String := []
  existing_docstring : Option String := none
deriving DecidableEq

/-- models.CodeMetrics.  The integer fields are Python ints that the
program only ever sets to non-negative values (they are modelled as
Nat); the two score fields are Python floats whose arithmetic here is
exact, modelled as rationals. -/
structure CodeMetrics where
  cyclomatic_complexity : Nat := 0
  lines_of_code : Nat := 0
  num_parameters : Nat := 0
  num_return_statements : Nat := 0
  has_type_hints : Bool := false
  quality_score : ℚ := 0
  maintainability_index : ℚ := 0
deriving DecidableEq

/-- models.Suggestion. -/
structure Suggestion where
  category : String
  severity : String
  message : String
  line_number : Option Nat := none
deriving DecidableEq

/-- models.CodeElementType (the module variant is never produced). -/
inductive CodeElementType where
  | function
  | method
  | classElement
deriving DecidableEq

/-- models.DocstringStyle. -/
inductive DocstringStyle where
  | google
  | numpy
  | sphinx
deriving DecidableEq

/-! ## ComplexityAnalyzer (src/app/tools.py:49-158) -/

/-- The has_type_hints check of analyze_function
(src/app/tools.py:109): any argument annotated, or a return
annotation present. -/
def hasTypeHints (node : PyFunctionDef) : Bool :=
  node.args.any (fun a => a.annot.isSome) || node.returns.isSome

/-- ComplexityAnalyzer.analyze_function (src/app/tools.py:91-124).
The visitor state (complexity = 1, return_count = 0) is reset and the
function node is visited; a FunctionDef node has no dedicated visit
method, so visiting it just generic-visits its children (the body). -/
def analyzeFunction (node : PyFunctionDef) : CodeMetrics :=
  let complexity := 1 + visitComplexityList node.body
  let return_count := visitReturnCountList node.body
  let loc := node.end_lineno - node.lineno + 1
  { cyclomatic_complexity := complexity
    lines_of_code := loc
    num_parameters := node.args.length
    num_return_statements := return_count
    has_type_hints := hasTypeHints node
    quality_score := 0
    maintainability_index :=
      max 0 (100 - (complexity : ℚ) * 3 - (loc : ℚ) * (1 / 2)) }

/-- The methods of a class body (isinstance(n, (FunctionDef,
AsyncFunctionDef)) over node.body, src/app/tools.py:139). -/
def classMethods (node : PyClassDef) : List PyFunctionDef :=
  node.body.filterMap fun it =>
    match it with
    | .methodDef f => some f
    | .asyncMethodDef f => some f
    | _ => none

/-- ComplexityAnalyzer.analyze_class (src/app/tools.py:126-158): a
fresh analyzer visits each method (starting at complexity 1), the
total is floor-divided by the method count (1 if no methods). -/
def analyzeClass (node : PyClassDef) : CodeMetrics :=
  let loc := node.end_lineno - node.lineno + 1
  let methods := classMethods node
  let total_complexity :=
    (methods.map (fun m => 1 + visitComplexityList m.body)).sum
  let avg_complexity :=
    if methods.length ≠ 0 then total_complexity / methods.length else 1
  { cyclomatic_complexity := avg_complexity
    lines_of_code := loc
    num_parameters := methods.length
    num_return_statements := 0
    has_type_hints := false
    quality_score := 0
    maintainability_index :=
      max 0 (100 - (avg_complexity : ℚ) * 2 - (loc : ℚ) * (3 / 10)) }

/-! ## Structural extractor (DocstringAgent._extract_function_info /
_extract_class_info, src/app/agents.py:287-392) -/

/-- The self/cls name test used both for the is_method flag and for
dropping parameters (src/app/agents.py:303,314). -/
def isSelfOrCls (s : String) : Bool :=
  s = "self" || s = "cls"

/-- The characters before the first opening parenthesis. -/
def takeUntilParen : List Char → List Char
  | [] => []
  | c :: rest => if c = Char.ofNat 40 then [] else c :: takeUntilParen rest

/-- ast.unparse(child.exc).split("(")[0]: the base name of a raised
exception expression (src/app/agents.py:339) — the prefix of the text
before the first opening parenthesis. -/
def excBaseName (s : String) : String :=
  String.mk (takeUntilParen s.data)

/-- One step of the in-loop deduplication `if x not in acc: acc.append(x)`
used for raises collection (src/app/agents.py:340) and, as the
deterministic within-process model of list(set(...)), for pattern
lists. -/
def addIfAbsent (acc : List String) (x : String) : List String :=
  if x ∈ acc then acc else acc ++ [x]

/-- First-occurrence deduplication of a list of strings. -/
def dedupKeepFirst (l : List String) : List String :=
  l.foldl addIfAbsent []

/-- The contribution of one walked node to the raises list: the base
name of the exception expression for an explicit
raise-with-expression (isinstance(child, ast.Raise) and child.exc,
src/app/agents.py:338), nothing for a bare re-raise or any other
node. -/
def raiseNameOf : PyNode → Option String
  | .raiseStmt (some e) _ => some (excBaseName e)
  | _ => none

/-- The base names of all explicit raise-with-expression statements in
a flattened subtree, in traversal order (src/app/agents.py:337-341
before deduplication). -/
def collectRaiseNames (walked : List PyNode) : List String :=
  walked.filterMap raiseNameOf

/-- The positional default assignment of _extract_function_info
(src/app/agents.py:323-331): iterating defaults i = 0..k-1, the
parameter at index n - k + i (when that is >= 0) receives default i.
Equivalently, parameter position p receives defaults[p + k - n] when
p + k >= n.  The recursion below threads the position p. -/
def assignDefaultsAux (defaults : List String) (n k : Nat) :
    Nat → List ParameterInfo → List ParameterInfo
  | _, [] => []
  | p, param :: rest =>
    (if n ≤ p + k then
      match defaults[p + k - n]? with
      | some d => { param with default_value := some d }
      | none => param
    else param) :: assignDefaultsAux defaults n k (p + 1) rest

/-- Default assignment over the recorded (self/cls-filtered)
parameter list, as the source performs it. -/
def assignDefaults (params : List ParameterInfo) (defaults : List String) :
    List ParameterInfo :=
  assignDefaultsAux defaults params.length defaults.length 0 params

/-- DocstringAgent._extract_function_info (src/app/agents.py:287-353). -/
def extractFunctionInfo (node : PyFunctionDef) : FunctionInfo :=
  let is_method :=
    match node.args with
    | a :: _ => isSelfOrCls a.name
    | [] => false
  let is_property :=
    node.decoratorList.any fun d =>
      match d with
      | .nameDec id => id = "property"
      | _ => false
  let params0 :=
    (node.args.filter fun a => !(isSelfOrCls a.name)).map fun a =>
      { name := a.name, type_hint := a.annot : ParameterInfo }
  let params := assignDefaults params0 node.defaults
  let raisesList :=
    (collectRaiseNames (walkList node.body)).foldl addIfAbsent []
  { name := node.name
    is_async := node.is_async
    is_method := is_method
    is_property := is_property
    parameters := params
    return_type := node.returns
    raises := raisesList
    decorators := node.decoratorList.map decoratorText
    existing_docstring := node.docstringConst }

/-- DocstringAgent._extract_class_info (src/app/agents.py:355-392). -/
def extractClassInfo (node : PyClassDef) : ClassInfo :=
  let methods := node.body.filterMap fun it =>
    match it with
    | .methodDef f => some f.name
    | .asyncMethodDef f => some f.name
    | _ => none
  let attributes := node.body.flatMap fun it =>
    match it with
    | .annAssignStmt (some id) => [id]
    | .assignStmt targets => targets.filterMap id
    | _ => []
  { name := node.name
    bases := node.bases
    methods := methods
    attributes := attributes
    decorators := node.decoratorList.map decoratorText
    existing_docstring := node.docstringConst }

/-! ## Scoring and suggestion engine (src/app/agents.py:394-596) -/

/-- The clamp max(0.0, min(100.0, score)) ending every score
computation (src/app/agents.py:434,471,506). -/
def pyClamp (s : ℚ) : ℚ :=
  max 0 (min 100 s)

/-- DocstringAgent._calculate_quality_score (src/app/agents.py:394-434). -/
def calculateQualityScore (metrics : CodeMetrics) (func_info : FunctionInfo) : ℚ :=
  let score : ℚ := 100
  let score :=
    if metrics.cyclomatic_complexity > 10 then
      score - ((metrics.cyclomatic_complexity : ℚ) - 10) * 5
    else score
  let score :=
    if metrics.lines_of_code > 50 then
      score - ((metrics.lines_of_code : ℚ) - 50) * (1 / 2)
    else score
  let score :=
    if metrics.num_parameters > 5 then
      score - ((metrics.num_parameters : ℚ) - 5) * 10
    else score
  let score := if metrics.has_type_hints then score + 15 else score - 10
  let score := if pyTruthy func_info.existing_docstring then score + 10 else score
  let score := if func_info.decorators ≠ [] then score + 5 else score
  pyClamp score

/-- DocstringAgent._calculate_class_quality_score
(src/app/agents.py:436-471). -/
def calculateClassQualityScore (_metrics : CodeMetrics) (class_info : ClassInfo) : ℚ :=
  let score : ℚ := 100
  let num_methods := class_info.methods.length
  let score :=
    if num_methods = 0 then score - 20
    else if num_methods > 20 then score - ((num_methods : ℚ) - 20) * 2
    else score
  let score := if pyTruthy class_info.existing_docstring then score + 15 else score
  let score :=
    if 1 ≤ class_info.bases.length ∧ class_info.bases.length ≤ 2 then score + 10
    else if class_info.bases.length > 2 then score - 10
    else score
  let score := if class_info.attributes ≠ [] then score + 5 else score
  pyClamp score

/-- The existing_docstring field shared by FunctionInfo and ClassInfo
(the hasattr check of _calculate_confidence_score always succeeds for
both). -/
def infoExistingDocstring : FunctionInfo ⊕ ClassInfo → Option String
  | .inl fi => fi.existing_docstring
  | .inr ci => ci.existing_docstring

/-- DocstringAgent._calculate_confidence_score
(src/app/agents.py:473-506). -/
def calculateConfidenceScore (info : FunctionInfo ⊕ ClassInfo)
    (metrics : CodeMetrics) (patterns : List String) : ℚ :=
  let confidence : ℚ := 70
  let confidence := if metrics.has_type_hints then confidence + 15 else confidence
  let confidence :=
    if patterns ≠ [] then confidence + min 10 ((patterns.length : ℚ) * 3)
    else confidence
  let confidence :=
    if metrics.cyclomatic_complexity > 15 then confidence - 10 else confidence
  let confidence :=
    if pyTruthy (infoExistingDocstring info) then confidence + 10 else confidence
  pyClamp confidence

/-- DocstringAgent._generate_suggestions (src/app/agents.py:508-555). -/
def generateSuggestions (func_info : FunctionInfo) (metrics : CodeMetrics)
    (_patterns : List String) : List Suggestion :=
  (if !metrics.has_type_hints then
    [{ category := "type_hints", severity := "warning"
       message := "Consider adding type hints to improve code clarity and enable static type checking" }]
  else []) ++
  (if metrics.cyclomatic_complexity > 10 then
    [{ category := "complexity", severity := "warning"
       message := "High cyclomatic complexity (" ++ toString metrics.cyclomatic_complexity ++ "). Consider refactoring into smaller functions" }]
  else []) ++
  (if metrics.num_parameters > 5 then
    [{ category := "parameters", severity := "info"
       message := "Function has " ++ toString metrics.num_parameters ++ " parameters. Consider using a configuration object or dataclass" }]
  else []) ++
  (if !(pyTruthy func_info.existing_docstring) then
    [{ category := "documentation", severity := "error"
       message := "Missing docstring. Add documentation to improve code maintainability" }]
  else [])

/-- DocstringAgent._generate_class_suggestions
(src/app/agents.py:557-596). -/
def generateClassSuggestions (class_info : ClassInfo) (_metrics : CodeMetrics)
    (_patterns : List String) : List Suggestion :=
  (if !(pyTruthy class_info.existing_docstring) then
    [{ category := "documentation", severity := "error"
       message := "Missing class docstring. Add documentation to describe the class purpose" }]
  else []) ++
  (if class_info.methods.length = 0 then
    [{ category := "design", severity := "warning"
       message := "Class has no methods. Consider if a dataclass or named tuple would be more appropriate" }]
  else []) ++
  (if class_info.bases.length > 3 then
    [{ category := "design", severity := "warning"
       message := "Multiple inheritance detected. Consider composition over inheritance" }]
  else [])

/-! ## ExampleGenerator (src/app/tools.py:348-423) -/

/-- The name-keyword cascade of ExampleGenerator._infer_param_value
(src/app/tools.py:410-423), reached when there is no type hint or no
type keyword matched. -/
def inferFromName (param : ParameterInfo) : String :=
  let name_lower := pyLower param.name
  if strContains name_lower "count" || strContains name_lower "num"
      || strContains name_lower "id" then "1"
  else if strContains name_lower "name" || strContains name_lower "text"
      || strContains name_lower "message" then "\"" ++ param.name ++ "\""
  else if strContains name_lower "flag" || strContains name_lower "is_"
      || strContains name_lower "has_" then "True"
  else if strContains name_lower "list" || strContains name_lower "items" then "[]"
  else if strContains name_lower "dict" || strContains name_lower "map" then "\x7b\x7d"
  else "\"value\""

/-- ExampleGenerator._infer_param_value (src/app/tools.py:392-423):
the type-hint cascade first (entered only when the hint is truthy),
falling through to the name cascade. -/
def inferParamValue (param : ParameterInfo) : String :=
  match param.type_hint with
  | some th =>
    if th = "" then inferFromName param
    else
      let type_lower := pyLower th
      if strContains type_lower "int" then "42"
      else if strContains type_lower "float" then "3.14"
      else if strContains type_lower "str" then "\"example\""
      else if strContains type_lower "bool" then "True"
      else if strContains type_lower "list" then "[]"
      else if strContains type_lower "dict" then "\x7b\x7d"
      else inferFromName param
  | none => inferFromName param

/-- ExampleGenerator._generate_param_values (src/app/tools.py:378-390):
parameters with a (truthy) default are skipped; the rest are rendered
name=value and joined by ", ". -/
def generateParamValues (parameters : List ParameterInfo) : String :=
  String.intercalate ", " <|
    parameters.filterMap fun param =>
      if pyTruthy param.default_value then none
      else some (param.name ++ "=" ++ inferParamValue param)

/-- ExampleGenerator.generate_example (src/app/tools.py:355-376). -/
def generateExample (func_info : FunctionInfo) (_patterns : List String) :
    Option String :=
  if func_info.parameters = [] then
    some ("    >>> " ++ func_info.name ++ "()\n    # Returns result")
  else
    let param_str := generateParamValues func_info.parameters
    if func_info.is_async then
      some ("    >>> await " ++ func_info.name ++ "(" ++ param_str ++ ")\n    # Returns result")
    else
      some ("    >>> result = " ++ func_info.name ++ "(" ++ param_str ++ ")\n    >>> print(result)")

/-! ## PatternDetector (src/app/tools.py:161-345) -/

/-- PatternDetector.COMMON_PATTERNS (src/app/tools.py:168-176), in
dictionary insertion order. -/
def COMMON_PATTERNS : List (String × List String) :=
  [("factory", ["create", "build", "make", "get_instance"]),
   ("singleton", ["__new__", "_instance", "get_instance"]),
   ("decorator", ["wrapper", "wrapped", "decorator"]),
   ("observer", ["notify", "subscribe", "update", "observer"]),
   ("strategy", ["strategy", "algorithm", "execute"]),
   ("builder", ["builder", "build", "construct"]),
   ("adapter", ["adapt", "adapter", "wrapper"])]

/-- Python list(set(...)) at the end of both detectors: deduplication.
Set iteration order is an implementation detail (fixed within one
interpreter process); the embedding models it as first-occurrence
order, which is deterministic and length-preserving in the same way. -/
def pySetList (l : List String) : List String :=
  dedupKeepFirst l

/-- PatternDetector._is_generator: subtree contains a Yield or
YieldFrom (src/app/tools.py:275-280). -/
def isGenerator (node : PyFunctionDef) : Bool :=
  (walkList node.body).any fun n =>
    match n with
    | .yieldExpr _ => true
    | .yieldFromExpr _ => true
    | _ => false

/-- PatternDetector._is_recursive: subtree contains a Call whose
callee is a plain name equal to the function name
(src/app/tools.py:286-293). -/
def isRecursive (node : PyFunctionDef) : Bool :=
  (walkList node.body).any fun n =>
    match n with
    | .callExpr (some f) _ => f = node.name
    | _ => false

/-- PatternDetector.detect_function_patterns (src/app/tools.py:178-216). -/
def detectFunctionPatterns (node : PyFunctionDef) (_source_code : String) :
    List String :=
  let func_name := pyLower node.name
  let patterns :=
    (COMMON_PATTERNS.filter fun pr =>
      pr.2.any fun keyword => strContains func_name keyword).map Prod.fst
  let patterns := patterns ++
    (if node.decoratorList.any (fun d =>
        match d with | .nameDec id => id = "property" | _ => false) then
      ["property_getter"] else [])
  let patterns := patterns ++
    (if node.decoratorList.any (fun d =>
        match d with | .attrDec _ a => a = "setter" | _ => false) then
      ["property_setter"] else [])
  let patterns := patterns ++
    (if node.name = "__enter__" ∨ node.name = "__exit__" then
      ["context_manager"] else [])
  let patterns := patterns ++ (if isGenerator node then ["generator"] else [])
  let patterns := patterns ++ (if node.is_async then ["async_function"] else [])
  let patterns := patterns ++ (if isRecursive node then ["recursive"] else [])
  pySetList patterns

/-- PatternDetector._is_singleton (src/app/tools.py:295-308). -/
def isSingletonClass (node : PyClassDef) : Bool :=
  (node.body.any fun it =>
    match it with
    | .methodDef f => f.name = "__new__"
    | _ => false) ||
  (node.body.any fun it =>
    match it with
    | .assignStmt targets =>
      targets.any fun t =>
        match t with
        | some id => strContains (pyLower id) "instance"
        | none => false
    | _ => false)

/-- PatternDetector._is_factory (src/app/tools.py:310-315).  The
method scan applies to sync FunctionDef bodies only, as in the
isinstance check of the source. -/
def isFactoryClass (node : PyClassDef) : Bool :=
  node.name.endsWith "Factory" ||
  node.body.any fun it =>
    match it with
    | .methodDef f => strContains (pyLower f.name) "create"
    | _ => false

/-- PatternDetector._is_builder (src/app/tools.py:317-322). -/
def isBuilderClass (node : PyClassDef) : Bool :=
  node.name.endsWith "Builder" ||
  node.body.any fun it =>
    match it with
    | .methodDef f => f.name = "build"
    | _ => false

/-- PatternDetector._is_dataclass (src/app/tools.py:324-329). -/
def isDataclass (node : PyClassDef) : Bool :=
  node.decoratorList.any fun d =>
    match d with
    | .nameDec id => id = "dataclass"
    | _ => false

/-- PatternDetector._is_abstract (src/app/tools.py:331-341): ABC in
any base text, or abstractmethod in any sync-method decorator text. -/
def isAbstractClass (node : PyClassDef) : Bool :=
  node.bases.any (fun b => strContains b "ABC") ||
  node.body.any fun it =>
    match it with
    | .methodDef f =>
      f.decoratorList.any fun d => strContains (decoratorText d) "abstractmethod"
    | _ => false

/-- PatternDetector.detect_class_patterns (src/app/tools.py:218-255). -/
def detectClassPatterns (node : PyClassDef) (_source_code : String) :
    List String :=
  let patterns := (if isSingletonClass node then ["singleton"] else [])
  let patterns := patterns ++ (if isFactoryClass node then ["factory"] else [])
  let patterns := patterns ++ (if isBuilderClass node then ["builder"] else [])
  let patterns := patterns ++ (if isDataclass node then ["dataclass"] else [])
  let patterns := patterns ++
    (if isAbstractClass node then ["abstract_base_class"] else [])
  let patterns := patterns ++ (if node.name.endsWith "Mixin" then ["mixin"] else [])
  pySetList patterns

/-! ## DocstringBuilder (src/app/tools.py:426-773)

The three dialect builders are embedded at the granularity the spec
itself uses to compare them: content decisions.  Each if-block of a
builder that appends lines becomes one DocSection entry; a section
carries exactly the data from which the emitted lines are computed
(the emitted text is a fixed pure function of that data via the
shared helpers _generate_smart_summary, _generate_param_description,
_generate_return_description and _generate_exception_description,
which all three builders call with identical arguments).  Layout
tokens — headers, delimiters, indentation — are what the abstraction
drops. -/

/-- The content rendered for one parameter entry: its name, its type
hint (when present), and the default value when the builder mentions
it (the "Defaults to …" clause).  The derived description is a
function of name and hint and is therefore not repeated here. -/
structure RenderedParam where
  name : String
  type_hint : Option String
  shownDefault : Option String
deriving DecidableEq

/-- Python truthiness applied to the default value before the
"Defaults to" clause is appended (if param.default_value:). -/
def shownDefaultOf (d : Option String) : Option String :=
  if pyTruthy d then d else none

/-- A content section of a generated function or class docstring. -/
inductive DocSection where
  | summary (name : String) (elementType : String) (patterns : List String)
  | patternInfo (patterns : List String)
  | complexityWarning (cc : Nat)
  | paramsSec (ps : List RenderedParam)
  | returnsSec (shownType : String) (funcName : String)
  | raisesSec (excs : List String)
  | asyncNote
  | inheritanceSec (bases : List String)
  | attributesSec (attrs : List String)
deriving DecidableEq

/-- The return type the Google builder prints: func_info.return_type
if truthy, else the literal Any (src/app/tools.py:515). -/
def orAny : Option String → String
  | some s => if s = "" then "Any" else s
  | none => "Any"

/-- DocstringBuilder._build_google_function (src/app/tools.py:478-532),
as its sequence of content sections. -/
def googleFunctionSections (func_info : FunctionInfo) (metrics : CodeMetrics)
    (patterns : List String) : List DocSection :=
  [DocSection.summary func_info.name "function" patterns] ++
  (if patterns ≠ [] then [DocSection.patternInfo patterns] else []) ++
  (if metrics.cyclomatic_complexity > 10 then
    [DocSection.complexityWarning metrics.cyclomatic_complexity] else []) ++
  (if func_info.parameters ≠ [] then
    [DocSection.paramsSec (func_info.parameters.map fun p =>
      { name := p.name, type_hint := p.type_hint
        shownDefault := shownDefaultOf p.default_value })]
  else []) ++
  (if pyTruthy func_info.return_type ∨ metrics.num_return_statements > 0 then
    [DocSection.returnsSec (orAny func_info.return_type) func_info.name]
  else []) ++
  (if func_info.raises ≠ [] then [DocSection.raisesSec func_info.raises] else []) ++
  (if func_info.is_async then [DocSection.asyncNote] else [])

/-- DocstringBuilder._build_numpy_function (src/app/tools.py:534-576):
no pattern, complexity-warning or async sections; the Returns section
is guarded by the return type alone. -/
def numpyFunctionSections (func_info : FunctionInfo) (_metrics : CodeMetrics)
    (patterns : List String) : List DocSection :=
  [DocSection.summary func_info.name "function" patterns] ++
  (if func_info.parameters ≠ [] then
    [DocSection.paramsSec (func_info.parameters.map fun p =>
      { name := p.name, type_hint := p.type_hint
        shownDefault := shownDefaultOf p.default_value })]
  else []) ++
  (match func_info.return_type with
   | some rt => if rt ≠ "" then [DocSection.returnsSec rt func_info.name] else []
   | none => []) ++
  (if func_info.raises ≠ [] then [DocSection.raisesSec func_info.raises] else [])

/-- DocstringBuilder._build_sphinx_function (src/app/tools.py:578-611):
like NumPy but the parameter entries never mention defaults. -/
def sphinxFunctionSections (func_info : FunctionInfo) (_metrics : CodeMetrics)
    (patterns : List String) : List DocSection :=
  [DocSection.summary func_info.name "function" patterns] ++
  (if func_info.parameters ≠ [] then
    [DocSection.paramsSec (func_info.parameters.map fun p =>
      { name := p.name, type_hint := p.type_hint, shownDefault := none })]
  else []) ++
  (match func_info.return_type with
   | some rt => if rt ≠ "" then [DocSection.returnsSec rt func_info.name] else []
   | none => []) ++
  (if func_info.raises ≠ [] then [DocSection.raisesSec func_info.raises] else [])

/-- DocstringBuilder.build_function_docstring dispatch
(src/app/tools.py:438-456). -/
def buildFunctionDocstring (style : DocstringStyle) (func_info : FunctionInfo)
    (metrics : CodeMetrics) (patterns : List String) : List DocSection :=
  match style with
  | .google => googleFunctionSections func_info metrics patterns
  | .numpy => numpyFunctionSections func_info metrics patterns
  | .sphinx => sphinxFunctionSections func_info metrics patterns

/-- DocstringBuilder._build_google_class (src/app/tools.py:613-641). -/
def googleClassSections (class_info : ClassInfo) (_metrics : CodeMetrics)
    (patterns : List String) : List DocSection :=
  [DocSection.summary class_info.name "class" patterns] ++
  (if patterns ≠ [] then [DocSection.patternInfo patterns] else []) ++
  (if class_info.bases ≠ [] then [DocSection.inheritanceSec class_info.bases] else []) ++
  (if class_info.attributes ≠ [] then
    [DocSection.attributesSec (class_info.attributes.take 5)] else [])

/-- DocstringBuilder._build_numpy_class (src/app/tools.py:643-662). -/
def numpyClassSections (class_info : ClassInfo) (_metrics : CodeMetrics)
    (patterns : List String) : List DocSection :=
  [DocSection.summary class_info.name "class" patterns] ++
  (if class_info.attributes ≠ [] then
    [DocSection.attributesSec (class_info.attributes.take 5)] else [])

/-- DocstringBuilder._build_sphinx_class (src/app/tools.py:664-674). -/
def sphinxClassSections (class_info : ClassInfo) (_metrics : CodeMetrics)
    (patterns : List String) : List DocSection :=
  [DocSection.summary class_info.name "class" patterns]

/-- DocstringBuilder.build_class_docstring dispatch
(src/app/tools.py:458-476). -/
def buildClassDocstring (style : DocstringStyle) (class_info : ClassInfo)
    (metrics : CodeMetrics) (patterns : List String) : List DocSection :=
  match style with
  | .google => googleClassSections class_info metrics patterns
  | .numpy => numpyClassSections class_info metrics patterns
  | .sphinx => sphinxClassSections class_info metrics patterns

/-! ## DocstringAgent pipeline (src/app/agents.py:32-285) -/

/-- The process-wide statistics dictionary self.stats
(src/app/agents.py:63-69). -/
structure AgentStats where
  total_analyzed : Nat := 0
  total_functions : Nat := 0
  total_classes : Nat := 0
  patterns_detected : Nat := 0
  examples_generated : Nat := 0
deriving DecidableEq

/-- models.DocstringResult.  The generated_docstring string is
modelled as its content: the dialect sections plus the optional
appended usage example (which, in the source, is concatenated below
the rendered sections under an Example heading). -/
structure DocstringResult where
  element_type : CodeElementType
  element_name : String
  file_path : String
  line_number : Nat
  docSections : List DocSection
  exampleText : Option String
  style : DocstringStyle
  quality_score : ℚ
  metrics : CodeMetrics
  suggestions : List Suggestion
  has_existing_docstring : Bool
  confidence_score : ℚ
deriving DecidableEq

/-- DocstringAgent._process_function (src/app/agents.py:178-233).
The agent state consists of the stats dictionary; the config only
contributes the selected dialect.  The example branch appends the
example and bumps examples_generated exactly when generate_example
returned a truthy string. -/
def processFunction (style : DocstringStyle) (node : PyFunctionDef)
    (file_path source_code : String) (stats : AgentStats) :
    DocstringResult × AgentStats :=
  let func_info := extractFunctionInfo node
  let metrics0 := analyzeFunction node
  let metrics := { metrics0 with
    quality_score := calculateQualityScore metrics0 func_info }
  let patterns := detectFunctionPatterns node source_code
  let docSections := buildFunctionDocstring style func_info metrics patterns
  let suggestions := generateSuggestions func_info metrics patterns
  let exampleText : Option String :=
    if metrics.cyclomatic_complexity > 5 ∨ func_info.parameters.length > 3 then
      match generateExample func_info patterns with
      | some ex => if ex ≠ "" then some ex else none
      | none => none
    else none
  let stats :=
    if exampleText.isSome then
      { stats with examples_generated := stats.examples_generated + 1 }
    else stats
  let confidence := calculateConfidenceScore (.inl func_info) metrics patterns
  ({ element_type :=
      if func_info.is_method then CodeElementType.method
      else CodeElementType.function
     element_name := func_info.name
     file_path := file_path
     line_number := node.lineno
     docSections := docSections
     exampleText := exampleText
     style := style
     quality_score := metrics.quality_score
     metrics := metrics
     suggestions := suggestions
     has_existing_docstring := func_info.existing_docstring.isSome
     confidence_score := confidence }, stats)

/-- DocstringAgent._process_class (src/app/agents.py:235-285). -/
def processClass (style : DocstringStyle) (node : PyClassDef)
    (file_path source_code : String) (stats : AgentStats) :
    DocstringResult × AgentStats :=
  let class_info := extractClassInfo node
  let metrics0 := analyzeClass node
  let metrics := { metrics0 with
    quality_score := calculateClassQualityScore metrics0 class_info }
  let patterns := detectClassPatterns node source_code
  let stats :=
    if patterns ≠ [] then
      { stats with patterns_detected := stats.patterns_detected + patterns.length }
    else stats
  let docSections := buildClassDocstring style class_info metrics patterns
  let suggestions := generateClassSuggestions class_info metrics patterns
  let confidence := calculateConfidenceScore (.inr class_info) metrics patterns
  ({ element_type := CodeElementType.classElement
     element_name := class_info.name
     file_path := file_path
     line_number := node.lineno
     docSections := docSections
     exampleText := none
     style := style
     quality_score := metrics.quality_score
     metrics := metrics
     suggestions := suggestions
     has_existing_docstring := class_info.existing_docstring.isSome
     confidence_score := confidence }, stats)

/-- One analyzable element encountered by the ast.walk loop of
process_code (src/app/agents.py:143-156): a class definition, or a
function definition that is not inside any class (functions inside a
class body are skipped by the _is_method check and are analyzed with
their class). -/
inductive PyTop where
  | classDef (c : PyClassDef)
  | functionDef (f : PyFunctionDef)

/-- The element-processing loop of process_code
(src/app/agents.py:143-156), threading the stats dictionary through
each element and collecting the results in encounter order.  The
truthiness test on each result always succeeds (both _process helpers
always return a result object). -/
def processElems (style : DocstringStyle) (file_path source_code : String) :
    List PyTop → AgentStats → List DocstringResult × AgentStats
  | [], stats => ([], stats)
  | PyTop.classDef c :: rest, stats =>
    let rs := processClass style c file_path source_code stats
    let stats := { rs.2 with total_classes := rs.2.total_classes + 1 }
    let rest' := processElems style file_path source_code rest stats
    (rs.1 :: rest'.1, rest'.2)
  | PyTop.functionDef f :: rest, stats =>
    let rs := processFunction style f file_path source_code stats
    let stats := { rs.2 with total_functions := rs.2.total_functions + 1 }
    let rest' := processElems style file_path source_code rest stats
    (rs.1 :: rest'.1, rest'.2)

/-- DocstringAgent.process_code (src/app/agents.py:122-159) on an
already-parsed tree: process every element, then bump total_analyzed
by the number of results. -/
def processCode (style : DocstringStyle) (tree : List PyTop)
    (source_code : String) (stats : AgentStats) :
    List DocstringResult × AgentStats :=
  let rs := processElems style "string_input.py" source_code tree stats
  (rs.1, { rs.2 with total_analyzed := rs.2.total_analyzed + rs.1.length })

/-- The location-and-message payload of a parser syntax error (the
parser itself is an external collaborator per spec section 6; its
outcome is passed in as an Except value). -/
structure SyntaxErrorInfo where
  msg : String
  lineno : Nat
  offset : Nat
deriving DecidableEq

/-- DocstringAgent.process_code including its try/except around
parsing (src/app/agents.py:132-137): a parse failure is re-raised as
a single syntax-error condition wrapping the message, and no element
is processed; a successful parse proceeds to the element loop. -/
def processCodeChecked (style : DocstringStyle)
    (parsed : Except SyntaxErrorInfo (List PyTop))
    (source_code : String) (stats : AgentStats) :
    Except SyntaxErrorInfo (List DocstringResult × AgentStats) :=
  match parsed with
  | Except.error e =>
    Except.error { e with msg := "Syntax error in provided code: " ++ e.msg }
  | Except.ok tree => Except.ok (processCode style tree source_code stats)

/-! ## Derived definitions used by the verification statements -/

/-- Modelled from the spec (section 4.2): the complexity the spec text
prescribes for a function subtree — 1 plus the specComplexityInc of
every node of the subtree. -/
def specFunctionComplexity (f : PyFunctionDef) : Nat :=
  1 + ((walkList f.body).map specComplexityInc).sum

/-- Whether a section list contains a Returns section. -/
def hasSectionReturns (l : List DocSection) : Bool :=
  l.any fun s => match s with | .returnsSec _ _ => true | _ => false

/-- Whether a section list contains a pattern-information section. -/
def hasSectionPatternInfo (l : List DocSection) : Bool :=
  l.any fun s => match s with | .patternInfo _ => true | _ => false

/-- Whether a section list contains a high-complexity warning. -/
def hasSectionComplexityWarning (l : List DocSection) : Bool :=
  l.any fun s => match s with | .complexityWarning _ => true | _ => false

/-- Whether a section list contains the async usage note. -/
def hasSectionAsyncNote (l : List DocSection) : Bool :=
  l.any fun s => match s with | .asyncNote => true | _ => false

/-! ### Concrete instances -/

/-- A function with no declared return type. -/
def exC1fi : FunctionInfo := { name := "f" }

/-- Metrics recording one return statement. -/
def exC1m : CodeMetrics := { num_return_statements := 1 }

/-- def f(a, self): a parameter named self in second position of a
function that is not a method. -/
def exC2fn : PyFunctionDef :=
  { name := "f", args := [{ name := "a" }, { name := "self" }] }

/-- def report(title, count=1, active=True). -/
def exC3fn : PyFunctionDef :=
  { name := "report"
    args := [{ name := "title" }, { name := "count" }, { name := "active" }]
    defaults := ["1", "True"] }

/-- A function body holding two sequential if statements and one
while loop, with no boolean operators. -/
def exC4lit : PyFunctionDef :=
  { name := "h", body := [.ifStmt [], .ifStmt [], .whileStmt []] }

/-- A function body holding a single async-for loop. -/
def exC4async : PyFunctionDef :=
  { name := "fa", body := [.asyncForStmt []] }

/-- def g(a, b, c, d) with trailing defaults 10 and 20. -/
def exC5fn : PyFunctionDef :=
  { name := "g"
    args := [{ name := "a" }, { name := "b" }, { name := "c" }, { name := "d" }]
    defaults := ["10", "20"] }

/-- A body raising ValueError(1) in one branch and performing a bare
re-raise inside an exception handler. -/
def exC8fn : PyFunctionDef :=
  { name := "r"
    body := [.ifStmt [.raiseStmt (some "ValueError(1)") []],
             .exceptHandler [.raiseStmt none []]] }

/-- A function whose name triggers the factory name-keyword pattern. -/
def exC10fn : PyFunctionDef := { name := "make_thing" }

/-- A stats snapshot with a nonzero patterns_detected count. -/
def exC10stats : AgentStats := { patterns_detected := 7 }

/-- A one-parameter function description. -/
def exC1wfi : FunctionInfo := { name := "f", parameters := [{ name := "t" }] }

/-- Default metrics. -/
def exC1wm : CodeMetrics := {}

/-! ## Shared lemmas -/

theorem pyClamp_nonneg (s : ℚ) : 0 ≤ pyClamp s :=
  le_max_left 0 (min 100 s)

theorem pyClamp_le_100 (s : ℚ) : pyClamp s ≤ 100 :=
  max_le (by norm_num) (min_le_left 100 s)

mutual

theorem visitComplexity_eq_walk : ∀ n : PyNode,
    visitComplexity n = ((walkNode n).map complexityInc).sum
  | .ifStmt cs => by
    simp [visitComplexity, walkNode, complexityInc, visitComplexityList_eq_walk cs]
  | .forStmt cs => by
    simp [visitComplexity, walkNode, complexityInc, visitComplexityList_eq_walk cs]
  | .asyncForStmt cs => by
    simp [visitComplexity, walkNode, complexityInc, visitComplexityList_eq_walk cs]
  | .whileStmt cs => by
    simp [visitComplexity, walkNode, complexityInc, visitComplexityList_eq_walk cs]
  | .exceptHandler cs => by
    simp [visitComplexity, walkNode, complexityInc, visitComplexityList_eq_walk cs]
  | .withStmt cs => by
    simp [visitComplexity, walkNode, complexityInc, visitComplexityList_eq_walk cs]
  | .asyncWithStmt cs => by
    simp [visitComplexity, walkNode, complexityInc, visitComplexityList_eq_walk cs]
  | .returnStmt cs => by
    simp [visitComplexity, walkNode, complexityInc, visitComplexityList_eq_walk cs]
  | .boolOp vs => by
    simp [visitComplexity, walkNode, complexityInc, visitComplexityList_eq_walk vs]
  | .raiseStmt e cs => by
    simp [visitComplexity, walkNode, complexityInc, visitComplexityList_eq_walk cs]
  | .yieldExpr cs => by
    simp [visitComplexity, walkNode, complexityInc, visitComplexityList_eq_walk cs]
  | .yieldFromExpr cs => by
    simp [visitComplexity, walkNode, complexityInc, visitComplexityList_eq_walk cs]
  | .callExpr f cs => by
    simp [visitComplexity, walkNode, complexityInc, visitComplexityList_eq_walk cs]
  | .other cs => by
    simp [visitComplexity, walkNode, complexityInc, visitComplexityList_eq_walk cs]

theorem visitComplexityList_eq_walk : ∀ l : List PyNode,
    visitComplexityList l = ((walkList l).map complexityInc).sum
  | [] => rfl
  | n :: ns => by
    simp [visitComplexityList, walkList, visitComplexity_eq_walk n,
      visitComplexityList_eq_walk ns]

end

/-! ## Claims -/

/-- C4 (amended): the complexity recorded by analyzeFunction equals 1
plus the per-node increments over the whole subtree, where the
increments are 1 for each if, (synchronous) for, while, exception
handler and (synchronous) with block and (k - 1) for a boolean
operation with k operands — async for / async with blocks are NOT
counted; consequently complexity is always at least 1; and the
literal case of two sequential ifs plus one while loop yields
exactly 4. -/
theorem complexity_counts_increments_and_literal_case :
    (∀ f : PyFunctionDef,
      (analyzeFunction f).cyclomatic_complexity
          = 1 + ((walkList f.body).map complexityInc).sum ∧
      1 ≤ (analyzeFunction f).cyclomatic_complexity) ∧
    (analyzeFunction exC4lit).cyclomatic_complexity = 4 := by
  refine ⟨fun f => ⟨?_, ?_⟩, by decide⟩
  · simp [analyzeFunction, visitComplexityList_eq_walk]
  · simp [analyzeFunction, Nat.le_add_right]

/-- C4 (counterexample): on a body consisting of one async-for loop
the program computes complexity 1 (no visit_AsyncFor method exists),
while the spec increment — one per loop of any kind — gives 2. -/
theorem complexity_asyncfor_counterexample :
    (analyzeFunction exC4async).cyclomatic_complexity
        ≠ specFunctionComplexity exC4async ∧
    (analyzeFunction exC4async).cyclomatic_complexity = 1 ∧
    specFunctionComplexity exC4async = 2 := by
  decide

/-- C6: quality scores and the confidence score are clamped into
[0, 100] for every input, however extreme. -/
theorem scores_clamped_total :
    ∀ (m : CodeMetrics) (fi : FunctionInfo) (ci : ClassInfo)
      (info : FunctionInfo ⊕ ClassInfo) (patterns : List String),
      (0 ≤ calculateQualityScore m fi ∧ calculateQualityScore m fi ≤ 100) ∧
      (0 ≤ calculateClassQualityScore m ci ∧
        calculateClassQualityScore m ci ≤ 100) ∧
      (0 ≤ calculateConfidenceScore info m patterns ∧
        calculateConfidenceScore info m patterns ≤ 100) := by
  intro m fi ci info patterns
  refine ⟨⟨?_, ?_⟩, ⟨?_, ?_⟩, ⟨?_, ?_⟩⟩ <;>
    first
      | exact pyClamp_nonneg _
      | exact pyClamp_le_100 _

/-- The first component of processFunction does not depend on the
incoming stats accumulator. -/
theorem processFunction_result_stats_free (style : DocstringStyle)
    (f : PyFunctionDef) (fp src : String) (s1 s2 : AgentStats) :
    (processFunction style f fp src s1).1 = (processFunction style f fp src s2).1 := rfl

/-- The first component of processClass does not depend on the
incoming stats accumulator. -/
theorem processClass_result_stats_free (style : DocstringStyle)
    (c : PyClassDef) (fp src : String) (s1 s2 : AgentStats) :
    (processClass style c fp src s1).1 = (processClass style c fp src s2).1 := rfl

/-- The result list of the element loop does not depend on the
incoming stats accumulator. -/
theorem processElems_result_stats_free (style : DocstringStyle)
    (fp src : String) :
    ∀ (l : List PyTop) (s1 s2 : AgentStats),
      (processElems style fp src l s1).1 = (processElems style fp src l s2).1
  | [], _, _ => rfl
  | PyTop.classDef c :: rest, s1, s2 => by
    simp only [processElems]
    rw [processClass_result_stats_free style c fp src s1 s2,
      processElems_result_stats_free style fp src rest]
  | PyTop.functionDef f :: rest, s1, s2 => by
    simp only [processElems]
    rw [processFunction_result_stats_free style f fp src s1 s2,
      processElems_result_stats_free style fp src rest]

/-- C7: the analysis results of process_code are a function of the
parsed tree (and selected dialect) alone — the process-wide stats
counters never influence any field, so analyzing the same source
twice (in particular, the second time starting from the stats state
the first run left behind) yields identical result sequences. -/
theorem processCode_deterministic :
    ∀ (style : DocstringStyle) (tree : List PyTop) (src : String)
      (s1 s2 : AgentStats),
      (processCode style tree src s1).1 = (processCode style tree src s2).1 := by
  intro style tree src s1 s2
  simp only [processCode]
  exact processElems_result_stats_free style "string_input.py" src tree s1 s2

/-- C9: when parsing fails, process_code reports a single
syntax-error condition wrapping the parser message (location
preserved) and emits no results at all. -/
theorem syntax_error_stops_analysis :
    ∀ (style : DocstringStyle) (e : SyntaxErrorInfo) (src : String)
      (stats : AgentStats),
      processCodeChecked style (Except.error e) src stats
        = Except.error
            { msg := "Syntax error in provided code: " ++ e.msg
              lineno := e.lineno, offset := e.offset } := by
  intro style e src stats
  rfl

/-- Processing a function never touches the patterns_detected
counter (only _process_class increments it). -/
theorem processFunction_preserves_patterns (style : DocstringStyle)
    (f : PyFunctionDef) (fp src : String) (stats : AgentStats) :
    ((processFunction style f fp src stats).2).patterns_detected
      = stats.patterns_detected := by
  simp only [processFunction]
  rw [apply_ite AgentStats.patterns_detected]
  exact ite_self _

/-- C10: the patterns_detected counter is only incremented while
processing a class; processing a function leaves it unchanged even
when function patterns are detected, so analyzing a tree that holds
only functions preserves the counter exactly. -/
theorem patterns_detected_only_for_classes :
    (∀ (style : DocstringStyle) (f : PyFunctionDef) (fp src : String)
      (stats : AgentStats),
      ((processFunction style f fp src stats).2).patterns_detected
        = stats.patterns_detected) ∧
    (∀ (style : DocstringStyle) (tree : List PyTop) (src : String)
      (stats : AgentStats),
      (∀ t ∈ tree, ∃ f, t = PyTop.functionDef f) →
      ((processCode style tree src stats).2).patterns_detected
        = stats.patterns_detected) := by
  constructor
  · intro style f fp src stats
    exact processFunction_preserves_patterns style f fp src stats
  · intro style tree src stats h
    have key : ∀ (l : List PyTop),
        (∀ t ∈ l, ∃ f, t = PyTop.functionDef f) →
        ∀ s : AgentStats,
        ((processElems style "string_input.py" src l s).2).patterns_detected
          = s.patterns_detected := by
      intro l
      induction l with
      | nil => intro _ s; rfl
      | cons t rest ih =>
        intro hl s
        obtain ⟨f, rfl⟩ := hl t (List.mem_cons_self t rest)
        simp only [processElems]
        rw [ih (fun u hu => hl u (List.mem_cons_of_mem _ hu))]
        exact processFunction_preserves_patterns style f "string_input.py" src s
    simp only [processCode]
    exact key tree h stats

/-- C10 witness: a tree holding one function whose name triggers the
factory pattern — patterns are detected for it, yet the counter stays
at its prior value. -/
theorem patterns_detected_only_for_classes_witness :
    detectFunctionPatterns exC10fn "x" = ["factory"] ∧
    ((processCode DocstringStyle.google [PyTop.functionDef exC10fn] "x"
        exC10stats).2).patterns_detected = exC10stats.patterns_detected :=
  ⟨by decide,
   patterns_detected_only_for_classes.2 DocstringStyle.google
     [PyTop.functionDef exC10fn] "x" exC10stats
     (fun t ht => by
       cases ht with
       | head => exact ⟨exC10fn, rfl⟩
       | tail _ hh => cases hh)⟩

/-! ### Lemmas on default assignment -/

theorem assignDefaultsAux_names (ds : List String) (n k : Nat) :
    ∀ (l : List ParameterInfo) (p0 : Nat),
      (assignDefaultsAux ds n k p0 l).map ParameterInfo.name
        = l.map ParameterInfo.name
  | [], _ => rfl
  | x :: xs, p0 => by
    simp only [assignDefaultsAux, List.map_cons,
      assignDefaultsAux_names ds n k xs (p0 + 1)]
    congr 1
    split
    · split <;> rfl
    · rfl

theorem assignDefaultsAux_length (ds : List String) (n k : Nat) :
    ∀ (l : List ParameterInfo) (p0 : Nat),
      (assignDefaultsAux ds n k p0 l).length = l.length
  | [], _ => rfl
  | x :: xs, p0 => by
    simp only [assignDefaultsAux, List.length_cons,
      assignDefaultsAux_length ds n k xs (p0 + 1)]

theorem assignDefaultsAux_getElem (ds : List String) (n k : Nat) :
    ∀ (l : List ParameterInfo) (p0 i : Nat),
      (assignDefaultsAux ds n k p0 l)[i]?
        = (l[i]?).map fun param =>
            if n ≤ p0 + i + k then
              match ds[p0 + i + k - n]? with
              | some d => { param with default_value := some d }
              | none => param
            else param
  | [], _, _ => by simp [assignDefaultsAux]
  | x :: xs, p0, 0 => by
    simp [assignDefaultsAux]
  | x :: xs, p0, i + 1 => by
    simp only [assignDefaultsAux, List.getElem?_cons_succ,
      assignDefaultsAux_getElem ds n k xs (p0 + 1) i]
    have harith : p0 + 1 + i = p0 + (i + 1) := by omega
    rw [harith]

/-! ### Lemmas on the deduplicating accumulator -/

theorem mem_addIfAbsent (acc : List String) (y x : String) :
    x ∈ addIfAbsent acc y ↔ x ∈ acc ∨ x = y := by
  unfold addIfAbsent
  split
  · rename_i hy
    constructor
    · exact fun h => Or.inl h
    · rintro (h | rfl)
      · exact h
      · exact hy
  · simp [List.mem_append]

theorem nodup_addIfAbsent (acc : List String) (y : String)
    (h : acc.Nodup) : (addIfAbsent acc y).Nodup := by
  unfold addIfAbsent
  split
  · exact h
  · rename_i hy
    simp [List.nodup_append, h, hy]

theorem mem_foldl_addIfAbsent :
    ∀ (l acc : List String) (x : String),
      x ∈ l.foldl addIfAbsent acc ↔ x ∈ acc ∨ x ∈ l
  | [], acc, x => by simp
  | y :: l, acc, x => by
    rw [List.foldl_cons, mem_foldl_addIfAbsent l (addIfAbsent acc y) x,
      mem_addIfAbsent]
    simp [or_assoc]

theorem nodup_foldl_addIfAbsent :
    ∀ (l acc : List String), acc.Nodup → (l.foldl addIfAbsent acc).Nodup
  | [], _, h => h
  | y :: l, acc, h => by
    rw [List.foldl_cons]
    exact nodup_foldl_addIfAbsent l (addIfAbsent acc y) (nodup_addIfAbsent acc y h)

theorem foldl_addIfAbsent_sublist :
    ∀ (l acc : List String),
      ∃ s, l.foldl addIfAbsent acc = acc ++ s ∧ s.Sublist l
  | [], acc => ⟨[], by simp, List.nil_sublist []⟩
  | y :: l, acc => by
    rw [List.foldl_cons]
    unfold addIfAbsent
    split
    · obtain ⟨s, hs, hsub⟩ := foldl_addIfAbsent_sublist l acc
      exact ⟨s, hs, hsub.cons y⟩
    · obtain ⟨s, hs, hsub⟩ := foldl_addIfAbsent_sublist l (acc ++ [y])
      exact ⟨y :: s, by simpa using hs, hsub.cons₂ y⟩

/-- Membership in the collected raise names: exactly the base names
of raise-with-expression nodes of the walked subtree. -/
theorem mem_collectRaiseNames (w : List PyNode) (s : String) :
    s ∈ collectRaiseNames w ↔
      ∃ e cs, PyNode.raiseStmt (some e) cs ∈ w ∧ excBaseName e = s := by
  unfold collectRaiseNames
  rw [List.mem_filterMap]
  constructor
  · rintro ⟨n, hn, hsome⟩
    cases n with
    | raiseStmt e cs =>
      cases e with
      | some t =>
        refine ⟨t, cs, hn, ?_⟩
        simpa [raiseNameOf] using hsome
      | none => simp [raiseNameOf] at hsome
    | ifStmt cs => simp [raiseNameOf] at hsome
    | forStmt cs => simp [raiseNameOf] at hsome
    | asyncForStmt cs => simp [raiseNameOf] at hsome
    | whileStmt cs => simp [raiseNameOf] at hsome
    | exceptHandler cs => simp [raiseNameOf] at hsome
    | withStmt cs => simp [raiseNameOf] at hsome
    | asyncWithStmt cs => simp [raiseNameOf] at hsome
    | returnStmt cs => simp [raiseNameOf] at hsome
    | boolOp vs => simp [raiseNameOf] at hsome
    | yieldExpr cs => simp [raiseNameOf] at hsome
    | yieldFromExpr cs => simp [raiseNameOf] at hsome
    | callExpr f cs => simp [raiseNameOf] at hsome
    | other cs => simp [raiseNameOf] at hsome
  · rintro ⟨e, cs, hmem, rfl⟩
    exact ⟨PyNode.raiseStmt (some e) cs, hmem, by simp [raiseNameOf]⟩

/-- C2 (amended): the extractor drops a parameter from the recorded
list iff its NAME is self or cls, at any position and regardless of
whether the element was classified as a method; the method flag
itself is set iff the first declared parameter is named self or cls. -/
theorem parameter_exclusion_by_name :
    (∀ f : PyFunctionDef,
      (extractFunctionInfo f).parameters.map ParameterInfo.name
        = (f.args.filter fun a => !(isSelfOrCls a.name)).map PyArg.name) ∧
    (∀ f : PyFunctionDef,
      ((extractFunctionInfo f).is_method = true ↔
        ∃ a rest, f.args = a :: rest ∧ (a.name = "self" ∨ a.name = "cls"))) := by
  constructor
  · intro f
    show (assignDefaults _ _).map ParameterInfo.name = _
    rw [assignDefaults, assignDefaultsAux_names]
    simp [List.map_map, Function.comp]
  · intro f
    show (match f.args with
      | a :: _ => isSelfOrCls a.name
      | [] => false) = true ↔ _
    cases f.args with
    | nil => simp
    | cons a rest => simp [isSelfOrCls]

/-- C2 (counterexample): for def f(a, self) — self in second
position, function not a method — the parameter named self is still
excluded from the recorded list, contradicting the claim that only a
first-position parameter of a method is excluded. -/
theorem parameter_exclusion_counterexample :
    (extractFunctionInfo exC2fn).is_method = false ∧
    (extractFunctionInfo exC2fn).parameters.map ParameterInfo.name = ["a"] := by
  decide

/-- C8: the recorded raised-error names are exactly the base names of
explicit raise-with-expression statements of the subtree (bare
re-raises contribute nothing), without duplicates, ordered as a
subsequence of the encounter order; the ValueError-plus-bare-reraise
literal case records exactly the one name ValueError. -/
theorem raises_distinct_explicit_names :
    (∀ (f : PyFunctionDef) (s : String),
      s ∈ (extractFunctionInfo f).raises ↔
        ∃ e cs, PyNode.raiseStmt (some e) cs ∈ walkList f.body ∧
          excBaseName e = s) ∧
    (∀ f : PyFunctionDef, ((extractFunctionInfo f).raises).Nodup) ∧
    (∀ f : PyFunctionDef,
      ((extractFunctionInfo f).raises).Sublist
        (collectRaiseNames (walkList f.body))) ∧
    (extractFunctionInfo exC8fn).raises = ["ValueError"] := by
  refine ⟨?_, ?_, ?_, by decide⟩
  · intro f s
    show s ∈ (collectRaiseNames (walkList f.body)).foldl addIfAbsent [] ↔ _
    rw [mem_foldl_addIfAbsent, ← mem_collectRaiseNames]
    simp
  · intro f
    exact nodup_foldl_addIfAbsent _ [] List.nodup_nil
  · intro f
    obtain ⟨s, hs, hsub⟩ :=
      foldl_addIfAbsent_sublist (collectRaiseNames (walkList f.body)) []
    show (collectRaiseNames (walkList f.body)).foldl addIfAbsent [] |>.Sublist _
    rw [hs]
    simpa using hsub

/-- C3 (amended): for def report(title, count=1, active=True) the
example generator skips the two defaulted parameters and supplies
only title, but the name-keyword cascade matches no rule for the
name title, so the rendered value is the final fallback: the
example supplies title="value" (not title="title"). -/
theorem example_synthesis_report_case :
    generateParamValues (extractFunctionInfo exC3fn).parameters
        = "title=\"value\"" ∧
    (extractFunctionInfo exC3fn).parameters.map
        (fun p => pyTruthy p.default_value) = [false, true, true] := by
  decide

/-- C3 (counterexample): the synthesized arguments for report are
title="value", not the claimed title="title". -/
theorem example_synthesis_report_counterexample :
    generateParamValues (extractFunctionInfo exC3fn).parameters
        ≠ "title=\"title\"" ∧
    generateParamValues (extractFunctionInfo exC3fn).parameters
        = "title=\"value\"" := by
  decide

/-- C5: in the recorded parameter list (length N) with a default list
of length K, position p carries defaults[p + K - N] when p + K >= N
and no default otherwise — defaults are matched positionally from the
end; for parameters [a, b, c, d] with defaults [10, 20], c gets 10,
d gets 20, a and b none. -/
theorem defaults_matched_from_end :
    (∀ (f : PyFunctionDef) (p : Nat) (param : ParameterInfo),
      ((extractFunctionInfo f).parameters)[p]? = some param →
      param.default_value =
        (if (extractFunctionInfo f).parameters.length ≤ p + f.defaults.length then
          f.defaults[p + f.defaults.length -
            (extractFunctionInfo f).parameters.length]?
        else none)) ∧
    ((extractFunctionInfo exC5fn).parameters.map ParameterInfo.default_value
      = [none, none, some "10", some "20"]) := by
  refine ⟨?_, by decide⟩
  intro f p param hp
  have hform : (extractFunctionInfo f).parameters
      = assignDefaults
          ((f.args.filter fun a => !(isSelfOrCls a.name)).map fun a =>
            { name := a.name, type_hint := a.annot : ParameterInfo })
          f.defaults := rfl
  set P0 := (f.args.filter fun a => !(isSelfOrCls a.name)).map fun a =>
      { name := a.name, type_hint := a.annot : ParameterInfo } with hP0
  have hlen : (extractFunctionInfo f).parameters.length = P0.length := by
    rw [hform, assignDefaults, assignDefaultsAux_length]
  rw [hform] at hp
  rw [assignDefaults, assignDefaultsAux_getElem] at hp
  obtain ⟨q, hq, htrans⟩ := Option.map_eq_some'.mp hp
  have hqdef : q.default_value = none := by
    rw [hP0, List.getElem?_map] at hq
    obtain ⟨a, _, rfl⟩ := Option.map_eq_some'.mp hq
    rfl
  rw [hlen]
  subst htrans
  by_cases hcase : P0.length ≤ p + f.defaults.length
  · rw [if_pos (by omega : P0.length ≤ 0 + p + f.defaults.length), if_pos hcase]
    have harith : (0 : Nat) + p + f.defaults.length = p + f.defaults.length := by
      omega
    rw [harith]
    cases hd : f.defaults[p + f.defaults.length - P0.length]? with
    | some d => rfl
    | none => exact hqdef
  · rw [if_neg (by omega : ¬ P0.length ≤ 0 + p + f.defaults.length), if_neg hcase]
    exact hqdef

/-- C5 witness: position 2 of the recorded parameters of
def g(a, b, c, d) with defaults [10, 20] is c, and the theorem
instantiated there yields its default, 10. -/
theorem defaults_matched_from_end_witness :
    ((extractFunctionInfo exC5fn).parameters)[2]? =
      some { name := "c", type_hint := none, default_value := some "10"
             description := "" } ∧
    ({ name := "c", type_hint := none, default_value := some "10"
       description := "" } : ParameterInfo).default_value =
      (if (extractFunctionInfo exC5fn).parameters.length ≤
          2 + exC5fn.defaults.length then
        exC5fn.defaults[2 + exC5fn.defaults.length -
          (extractFunctionInfo exC5fn).parameters.length]?
      else none) :=
  ⟨by decide, defaults_matched_from_end.1 exC5fn 2 _ (by decide)⟩

/-! ### Lemmas on section lists -/

theorem any_ite_singleton (c : Prop) [Decidable c] (x : DocSection)
    (p : DocSection → Bool) :
    (if c then [x] else []).any p = if c then p x else false := by
  by_cases h : c <;> simp [h]

theorem mem_ite_singleton (c : Prop) [Decidable c] (x a : DocSection) :
    (a ∈ if c then [x] else []) ↔ c ∧ a = x := by
  by_cases h : c <;> simp [h]

theorem any_returns_match (rt : Option String) (fn : String)
    (p : DocSection → Bool) :
    ((match rt with
      | some r => if r ≠ "" then [DocSection.returnsSec r fn] else []
      | none => []).any p)
      = if pyTruthy rt = true then p (DocSection.returnsSec (orAny rt) fn)
        else false := by
  cases rt with
  | none => simp [pyTruthy]
  | some r =>
    by_cases h : r = ""
    · simp [h, pyTruthy]
    · simp [h, pyTruthy, orAny]

theorem mem_returns_match (rt : Option String) (fn : String) (a : DocSection) :
    (a ∈ (match rt with
      | some r => if r ≠ "" then [DocSection.returnsSec r fn] else []
      | none => [])) ↔
      pyTruthy rt = true ∧ a = DocSection.returnsSec (orAny rt) fn := by
  cases rt with
  | none => simp [pyTruthy]
  | some r =>
    by_cases h : r = ""
    · simp [h, pyTruthy]
    · simp [h, pyTruthy, orAny]

/-- C1 (counterexample): for a function with no declared return type
and one counted return statement, the Google dialect emits a Returns
section while NumPy and Sphinx do not — the three dialects do not
share identical content decisions, and the Returns section is not
present in every dialect under the claimed condition. -/
theorem dialect_returns_counterexample :
    hasSectionReturns (googleFunctionSections exC1fi exC1m []) = true ∧
    hasSectionReturns (numpyFunctionSections exC1fi exC1m []) = false ∧
    hasSectionReturns (sphinxFunctionSections exC1fi exC1m []) = false ∧
    googleFunctionSections exC1fi exC1m []
      ≠ numpyFunctionSections exC1fi exC1m [] := by
  decide

/-- C1 (amended): the content decisions actually made per dialect —
Google emits a Returns section iff a truthy declared return type
exists OR the return-statement count is positive, while NumPy and
Sphinx emit it iff a truthy declared return type exists; the pattern
list, the high-complexity warning and the async note are emitted by
the Google dialect only; the parameter and raises decisions agree
between Google and NumPy, and the Sphinx parameter entries never
mention default values. -/
theorem dialect_content_decisions :
    ∀ (fi : FunctionInfo) (m : CodeMetrics) (pats : List String),
      (hasSectionReturns (googleFunctionSections fi m pats) = true ↔
        (pyTruthy fi.return_type = true ∨ 0 < m.num_return_statements)) ∧
      (hasSectionReturns (numpyFunctionSections fi m pats) = true ↔
        pyTruthy fi.return_type = true) ∧
      (hasSectionReturns (sphinxFunctionSections fi m pats) = true ↔
        pyTruthy fi.return_type = true) ∧
      (hasSectionPatternInfo (googleFunctionSections fi m pats) = true ↔
        pats ≠ []) ∧
      hasSectionPatternInfo (numpyFunctionSections fi m pats) = false ∧
      hasSectionPatternInfo (sphinxFunctionSections fi m pats) = false ∧
      (hasSectionComplexityWarning (googleFunctionSections fi m pats) = true ↔
        10 < m.cyclomatic_complexity) ∧
      hasSectionComplexityWarning (numpyFunctionSections fi m pats) = false ∧
      hasSectionComplexityWarning (sphinxFunctionSections fi m pats) = false ∧
      hasSectionAsyncNote (googleFunctionSections fi m pats) = fi.is_async ∧
      hasSectionAsyncNote (numpyFunctionSections fi m pats) = false ∧
      hasSectionAsyncNote (sphinxFunctionSections fi m pats) = false ∧
      (∀ ps, DocSection.paramsSec ps ∈ googleFunctionSections fi m pats ↔
        DocSection.paramsSec ps ∈ numpyFunctionSections fi m pats) ∧
      (∀ ps rp, DocSection.paramsSec ps ∈ sphinxFunctionSections fi m pats →
        rp ∈ ps → rp.shownDefault = none) := by
  intro fi m pats
  refine ⟨?_, ?_, ?_, ?_, ?_, ?_, ?_, ?_, ?_, ?_, ?_, ?_, ?_, ?_⟩
  · simp only [hasSectionReturns, googleFunctionSections, List.any_append,
      List.any_cons, List.any_nil, any_ite_singleton]
    split_ifs <;> simp_all
  · simp only [hasSectionReturns, numpyFunctionSections, List.any_append,
      List.any_cons, List.any_nil, any_ite_singleton, any_returns_match]
    split_ifs <;> simp_all
  · simp only [hasSectionReturns, sphinxFunctionSections, List.any_append,
      List.any_cons, List.any_nil, any_ite_singleton, any_returns_match]
    split_ifs <;> simp_all
  · simp only [hasSectionPatternInfo, googleFunctionSections, List.any_append,
      List.any_cons, List.any_nil, any_ite_singleton]
    split_ifs <;> simp_all
  · simp only [hasSectionPatternInfo, numpyFunctionSections, List.any_append,
      List.any_cons, List.any_nil, any_ite_singleton, any_returns_match]
    split_ifs <;> simp_all
  · simp only [hasSectionPatternInfo, sphinxFunctionSections, List.any_append,
      List.any_cons, List.any_nil, any_ite_singleton, any_returns_match]
    split_ifs <;> simp_all
  · simp only [hasSectionComplexityWarning, googleFunctionSections,
      List.any_append, List.any_cons, List.any_nil, any_ite_singleton]
    split_ifs <;> simp_all
  · simp only [hasSectionComplexityWarning, numpyFunctionSections,
      List.any_append, List.any_cons, List.any_nil, any_ite_singleton,
      any_returns_match]
    split_ifs <;> simp_all
  · simp only [hasSectionComplexityWarning, sphinxFunctionSections,
      List.any_append, List.any_cons, List.any_nil, any_ite_singleton,
      any_returns_match]
    split_ifs <;> simp_all
  · simp only [hasSectionAsyncNote, googleFunctionSections, List.any_append,
      List.any_cons, List.any_nil, any_ite_singleton]
    split_ifs <;> simp_all
  · simp only [hasSectionAsyncNote, numpyFunctionSections, List.any_append,
      List.any_cons, List.any_nil, any_ite_singleton, any_returns_match]
    split_ifs <;> simp_all
  · simp only [hasSectionAsyncNote, sphinxFunctionSections, List.any_append,
      List.any_cons, List.any_nil, any_ite_singleton, any_returns_match]
    split_ifs <;> simp_all
  · intro ps
    simp only [googleFunctionSections, numpyFunctionSections, List.mem_append,
      List.mem_singleton, mem_ite_singleton, mem_returns_match]
    simp
  · intro ps rp hmem hrp
    simp only [sphinxFunctionSections, List.mem_append, List.mem_singleton,
      mem_ite_singleton, mem_returns_match] at hmem
    rcases hmem with ((h | ⟨_, h⟩) | ⟨_, h⟩) | ⟨_, h⟩
    · cases h
    · obtain ⟨rfl⟩ := DocSection.paramsSec.inj h.symm
      simp only [List.mem_map] at hrp
      obtain ⟨q, _, rfl⟩ := hrp
      rfl
    · cases h
    · cases h

/-- C1 witness: instantiating the Sphinx no-defaults conjunct at a
concrete one-parameter function. -/
theorem dialect_content_decisions_witness :
    ({ name := "t", type_hint := none, shownDefault := none } :
      RenderedParam).shownDefault = none :=
  (dialect_content_decisions exC1wfi exC1wm []).2.2.2.2.2.2.2.2.2.2.2.2.2
    [{ name := "t", type_hint := none, shownDefault := none }]
    { name := "t", type_hint := none, shownDefault := none }
    (by decide) (by decide)

end DocAgent
